import Mathlib

/-!
Verification of the protocol-rust wire-protocol codec.

Bytes are modelled as natural numbers (values of a Rust u8); fixed 16-byte
identifier buffers are modelled as lists; fallible Rust functions return
Except; a Rust panic is modelled by the value none of an Option layer.
-/

namespace ProtocolRust

/-- Maximum byte length of a track name (constant TRACK_NAME_MAX_LENGTH in lib.rs). -/
def TRACK_NAME_MAX_LENGTH : Nat := 16

/-- Maximum byte length of a stream identifier (constant STREAM_NAME_MAX_LENGTH in lib.rs). -/
def STREAM_NAME_MAX_LENGTH : Nat := 16

/-- A stream identifier buffer, Rust type alias StreamName = [u8; 16]. -/
abbrev StreamName := List Nat

/-- A track name buffer, Rust type alias TrackName = [u8; 16]. -/
abbrev TrackName := List Nat

/-- The track kind enum from lib.rs with variants Video, Meta and NotImplemented. -/
inductive TrackType : Type
  | Video : TrackType
  | Meta : TrackType
  | NotImplemented : TrackType
deriving DecidableEq, Repr

/-- The Default impl for TrackType in lib.rs returns Video. -/
def TrackType.default : TrackType := TrackType.Video

/-- The Payload struct from lib.rs: raw data bytes plus string attributes.
The Rust HashMap of attributes is modelled as an association list holding the
deterministic order the serializer writes. -/
structure Payload : Type where
  data : List Nat
  attributes : List (String × String)

/-- The TrackInfo struct from lib.rs: a track kind together with a packed name. -/
structure TrackInfo : Type where
  track_type : TrackType
  track_name : TrackName

/-- get_empty_track_name from lib.rs: the all-zero 16-byte buffer. -/
def get_empty_track_name : TrackName :=
  List.replicate TRACK_NAME_MAX_LENGTH 0

/-- pack_stream_name from lib.rs: clones the 16 raw bytes of the given Uuid. -/
def pack_stream_name (stream_name : List Nat) : StreamName :=
  stream_name

/-- Models the Rust slice assignment buf[..n].clone_from_slice(src): the value
none models the panic raised when n is out of bounds for buf or when the
source length differs from the destination slice length n. -/
def slice_copy_at_start (buf : List Nat) (n : Nat) (src : List Nat) : Option (List Nat) :=
  if n ≤ buf.length ∧ src.length = n then some (src ++ buf.drop n) else none

/-- pack_track_name from lib.rs: rejects names longer than 16 bytes with an
error string, otherwise copies the name into the front of an all-zero buffer.
The outer Option models freedom from panic of the slice copy. -/
def pack_track_name (track_name : List Nat) : Option (Except String TrackName) :=
  let name_len := track_name.length
  if name_len > TRACK_NAME_MAX_LENGTH then
    some (Except.error
      "Invalid track name length. Must me less than 16 characters.")
  else
    match slice_copy_at_start get_empty_track_name name_len track_name with
    | some buf => some (Except.ok buf)
    | none => none

/-- Modelled from the spec: the track-name unpacking used by the decoders lives
in crate modules absent from src; per the spec it strips every trailing zero
byte as padding to recover the original name. -/
def unpack_track_name (buf : List Nat) : List Nat :=
  List.reverse (List.dropWhile (fun b => b == 0) (List.reverse buf))

lemma drop_replicate_zero (n m : Nat) :
    (List.replicate m (0 : Nat)).drop n = List.replicate (m - n) 0 := by
  induction n generalizing m with
  | zero => simp
  | succ k ih =>
    cases m with
    | zero => simp
    | succ m2 => simp [List.replicate_succ, ih m2]

lemma pack_track_name_of_le (track_name : List Nat)
    (h : track_name.length ≤ TRACK_NAME_MAX_LENGTH) :
    pack_track_name track_name =
      some (Except.ok
        (track_name ++
          List.replicate (TRACK_NAME_MAX_LENGTH - track_name.length) 0)) := by
  have h1 : ¬ track_name.length > TRACK_NAME_MAX_LENGTH := by omega
  unfold pack_track_name slice_copy_at_start get_empty_track_name
  simp [h1, h, drop_replicate_zero]

lemma pack_track_name_of_gt (track_name : List Nat)
    (h : TRACK_NAME_MAX_LENGTH < track_name.length) :
    pack_track_name track_name =
      some (Except.error
        "Invalid track name length. Must me less than 16 characters.") := by
  unfold pack_track_name
  simp [h]

lemma dropWhile_zero_replicate (m : Nat) (t : List Nat) :
    List.dropWhile (fun b => b == 0) (List.replicate m 0 ++ t) =
      List.dropWhile (fun b => b == 0) t := by
  induction m with
  | zero => rfl
  | succ k ih => simp [List.replicate_succ, ih]

lemma dropWhile_zero_of_getLast (l : List Nat) (h : l.getLast? ≠ some 0) :
    List.dropWhile (fun b => b == 0) l.reverse = l.reverse := by
  cases hrev : l.reverse with
  | nil => rfl
  | cons a t =>
    have hlast : l.getLast? = some a := by
      rw [← List.head?_reverse, hrev]
      rfl
    have ha : (a == 0) = false := by
      have : a ≠ 0 := fun h0 => h (by rw [hlast, h0])
      simpa using this
    simp [List.dropWhile_cons, ha]

lemma unpack_append_zeros (l : List Nat) (m : Nat) (h : l.getLast? ≠ some 0) :
    unpack_track_name (l ++ List.replicate m 0) = l := by
  unfold unpack_track_name
  rw [List.reverse_append, List.reverse_replicate, dropWhile_zero_replicate,
    dropWhile_zero_of_getLast l h, List.reverse_reverse]

/-- Modelled from the spec: the typed field values of the generic record layer
(the avro serializer consumed by the message_builder module, absent from src).
Field types cover integers, booleans, byte sequences, strings, enum tags,
optional values, ordered sequences and string-keyed mappings. -/
inductive FieldValue : Type
  | longV : Int → FieldValue
  | boolV : Bool → FieldValue
  | stringV : String → FieldValue
  | bytesV : List Nat → FieldValue
  | enumV : Nat → FieldValue
  | noneV : FieldValue
  | someV : FieldValue → FieldValue
  | arrayV : List FieldValue → FieldValue
  | mapV : List (String × String) → FieldValue
  | recordV : List (String × FieldValue) → FieldValue

/-- A structured field map: field names with typed values, in schema order. -/
abbrev FieldMap := List (String × FieldValue)

/-- Modelled from the spec: an encoded wire buffer of the codec (produced by
the message_builder module, absent from src). The generic encoder is
deterministic and decoding is its inverse, so a buffer is represented by its
logical content: the self-identifying discriminator plus the encoded field
map; byte-for-byte equality of buffers is equality of this content. -/
structure WireMessage : Type where
  discriminator : String
  fields : FieldMap

/-- Modelled from the spec: the error kinds of the decoder in the protocol
module, absent from src. -/
inductive ProtocolError : Type
  | unknownDiscriminator : ProtocolError
  | malformedBody : ProtocolError
  | schemaFieldMismatch : ProtocolError
deriving DecidableEq, Repr

/-- Modelled from the spec: the fixed discriminator table of the Schema
Registry (MessageBuilder::schema_files, absent from src), one entry per
message kind. -/
def registeredDiscriminators : List String :=
  ["NotifyMessage", "UnitElementMessage", "StreamTracksRequest",
    "StreamTracksResponse", "StreamTrackUnitElementsRequest",
    "StreamTrackUnitElementsResponse", "StreamTrackUnitsRequest",
    "StreamTrackUnitsResponse", "PingRequestResponse",
    "ServicesFFProbeRequest", "ServicesFFProbeResponse"]

/-- Modelled from the spec: the small-integer wire tag of a TrackType. -/
def trackTypeTag : TrackType → Nat
  | TrackType.Video => 0
  | TrackType.Meta => 1
  | TrackType.NotImplemented => 2

/-- Modelled from the spec: reading a TrackType back from its wire tag; an
unknown tag is a schema mismatch. -/
def tagTrackType : Nat → Except ProtocolError TrackType
  | 0 => Except.ok TrackType.Video
  | 1 => Except.ok TrackType.Meta
  | 2 => Except.ok TrackType.NotImplemented
  | _ => Except.error ProtocolError.schemaFieldMismatch

/-- Modelled from the spec: the status enum of the ffprobe service response
(defined in the message_builder services module, absent from src). -/
inductive ServicesFFProbeResponseType : Type
  | Accepted : ServicesFFProbeResponseType
deriving DecidableEq, Repr

/-- Modelled from the spec: the wire tag of a ServicesFFProbeResponseType. -/
def ffprobeResponseTypeTag : ServicesFFProbeResponseType → Nat
  | ServicesFFProbeResponseType.Accepted => 0

/-- Modelled from the spec: reading a ServicesFFProbeResponseType back from
its wire tag. -/
def tagFFProbeResponseType : Nat → Except ProtocolError ServicesFFProbeResponseType
  | 0 => Except.ok ServicesFFProbeResponseType.Accepted
  | _ => Except.error ProtocolError.schemaFieldMismatch

/-- Modelled from the spec: the field-map record for one (track name, track
type) entry of a StreamTracksResponse. -/
def encodeTrackEntry (entry : TrackName × TrackType) : FieldValue :=
  FieldValue.recordV
    [("name", FieldValue.bytesV entry.1),
      ("type", FieldValue.enumV (trackTypeTag entry.2))]

/-- Modelled from the spec: the field-map record for one Payload. -/
def encodePayload (p : Payload) : FieldValue :=
  FieldValue.recordV
    [("data", FieldValue.bytesV p.data),
      ("attributes", FieldValue.mapV p.attributes)]

/-- Modelled from the spec: the ttl field of a NotifyMessage, an explicit
absence marker when the optional value is missing. -/
def encodeOptLong : Option Int → FieldValue
  | some n => FieldValue.someV (FieldValue.longV n)
  | none => FieldValue.noneV

/-- Modelled from the spec: build_notify_message from the message_builder
media_store module, absent from src. -/
def build_notify_message (stream_name : StreamName) (track_type : TrackType)
    (track_name : TrackName) (element_offset : Int) (saved_ms : Int)
    (ttl : Option Int) : WireMessage :=
  ⟨"NotifyMessage",
    [("stream_name", FieldValue.bytesV stream_name),
      ("track_type", FieldValue.enumV (trackTypeTag track_type)),
      ("track_name", FieldValue.bytesV track_name),
      ("element_offset", FieldValue.longV element_offset),
      ("saved_ms", FieldValue.longV saved_ms),
      ("ttl", encodeOptLong ttl)]⟩

/-- Modelled from the spec: build_unit_element_message from the
message_builder media_store module, absent from src. -/
def build_unit_element_message (stream_name : StreamName)
    (track_type : TrackType) (track_name : TrackName) (unit : Int)
    (element : Int) (value : List Nat) (attributes : List (String × String))
    (last : Bool) : WireMessage :=
  ⟨"UnitElementMessage",
    [("stream_name", FieldValue.bytesV stream_name),
      ("track_type", FieldValue.enumV (trackTypeTag track_type)),
      ("track_name", FieldValue.bytesV track_name),
      ("unit", FieldValue.longV unit),
      ("element", FieldValue.longV element),
      ("value", FieldValue.bytesV value),
      ("attributes", FieldValue.mapV attributes),
      ("last", FieldValue.boolV last)]⟩

/-- Modelled from the spec: build_stream_tracks_request from the
message_builder media_store module, absent from src. -/
def build_stream_tracks_request (request_id : Int) (topic : String)
    (stream_name : StreamName) : WireMessage :=
  ⟨"StreamTracksRequest",
    [("request_id", FieldValue.longV request_id),
      ("topic", FieldValue.stringV topic),
      ("stream_name", FieldValue.bytesV stream_name)]⟩

/-- Modelled from the spec: build_stream_tracks_response from the
message_builder media_store module, absent from src. -/
def build_stream_tracks_response (request_id : Int) (stream_name : StreamName)
    (tracks : List (TrackName × TrackType)) : WireMessage :=
  ⟨"StreamTracksResponse",
    [("request_id", FieldValue.longV request_id),
      ("stream_name", FieldValue.bytesV stream_name),
      ("tracks", FieldValue.arrayV (tracks.map encodeTrackEntry))]⟩

/-- Modelled from the spec: build_stream_track_unit_elements_request from the
message_builder media_store module, absent from src. -/
def build_stream_track_unit_elements_request (request_id : Int)
    (topic : String) (stream_name : StreamName) (track_type : TrackType)
    (track_name : TrackName) (start_element : Int) (stop_element : Int) :
    WireMessage :=
  ⟨"StreamTrackUnitElementsRequest",
    [("request_id", FieldValue.longV request_id),
      ("topic", FieldValue.stringV topic),
      ("stream_name", FieldValue.bytesV stream_name),
      ("track_type", FieldValue.enumV (trackTypeTag track_type)),
      ("track_name", FieldValue.bytesV track_name),
      ("from_element", FieldValue.longV start_element),
      ("to_element", FieldValue.longV stop_element)]⟩

/-- Modelled from the spec: build_stream_track_unit_elements_response from the
message_builder media_store module, absent from src. -/
def build_stream_track_unit_elements_response (request_id : Int)
    (stream_name : StreamName) (track_type : TrackType)
    (track_name : TrackName) (unit : Int) (values : List Payload) :
    WireMessage :=
  ⟨"StreamTrackUnitElementsResponse",
    [("request_id", FieldValue.longV request_id),
      ("stream_name", FieldValue.bytesV stream_name),
      ("track_type", FieldValue.enumV (trackTypeTag track_type)),
      ("track_name", FieldValue.bytesV track_name),
      ("unit", FieldValue.longV unit),
      ("values", FieldValue.arrayV (values.map encodePayload))]⟩

/-- Modelled from the spec: build_stream_track_units_request from the
message_builder media_store module, absent from src. -/
def build_stream_track_units_request (request_id : Int) (topic : String)
    (stream_name : StreamName) (track_type : TrackType)
    (track_name : TrackName) (from_ms : Int) (to_ms : Int) : WireMessage :=
  ⟨"StreamTrackUnitsRequest",
    [("request_id", FieldValue.longV request_id),
      ("topic", FieldValue.stringV topic),
      ("stream_name", FieldValue.bytesV stream_name),
      ("track_type", FieldValue.enumV (trackTypeTag track_type)),
      ("track_name", FieldValue.bytesV track_name),
      ("from_ms", FieldValue.longV from_ms),
      ("to_ms", FieldValue.longV to_ms)]⟩

/-- Modelled from the spec: build_stream_track_units_response from the
message_builder media_store module, absent from src. -/
def build_stream_track_units_response (request_id : Int)
    (stream_name : StreamName) (track_type : TrackType)
    (track_name : TrackName) (from_ms : Int) (to_ms : Int)
    (data : List Nat) : WireMessage :=
  ⟨"StreamTrackUnitsResponse",
    [("request_id", FieldValue.longV request_id),
      ("stream_name", FieldValue.bytesV stream_name),
      ("track_type", FieldValue.enumV (trackTypeTag track_type)),
      ("track_name", FieldValue.bytesV track_name),
      ("from_ms", FieldValue.longV from_ms),
      ("to_ms", FieldValue.longV to_ms),
      ("data", FieldValue.bytesV data)]⟩

/-- Modelled from the spec: build_ping_request_response from the
message_builder module, absent from src; one shape serves request and
response, told apart by a boolean flag. -/
def build_ping_request_response (request_id : Int) (topic : String)
    (is_response : Bool) : WireMessage :=
  ⟨"PingRequestResponse",
    [("request_id", FieldValue.longV request_id),
      ("topic", FieldValue.stringV topic),
      ("is_response", FieldValue.boolV is_response)]⟩

/-- Modelled from the spec: build_services_ffprobe_request from the
message_builder services ffprobe module, absent from src. -/
def build_services_ffprobe_request (request_id : Int) (topic : String)
    (url : String) (attributes : List (String × String)) : WireMessage :=
  ⟨"ServicesFFProbeRequest",
    [("request_id", FieldValue.longV request_id),
      ("topic", FieldValue.stringV topic),
      ("url", FieldValue.stringV url),
      ("attributes", FieldValue.mapV attributes)]⟩

/-- Modelled from the spec: build_services_ffprobe_response from the
message_builder services ffprobe module, absent from src. -/
def build_services_ffprobe_response (request_id : Int)
    (response_type : ServicesFFProbeResponseType) (response_code : Int)
    (streams : List (List (String × String))) : WireMessage :=
  ⟨"ServicesFFProbeResponse",
    [("request_id", FieldValue.longV request_id),
      ("response_type", FieldValue.enumV (ffprobeResponseTypeTag response_type)),
      ("response_code", FieldValue.longV response_code),
      ("streams", FieldValue.arrayV (streams.map FieldValue.mapV))]⟩

/-- Modelled from the spec: MessageBuilder::read_protocol_message from the
message_builder module, absent from src; extracts the discriminator, rejects
an unregistered one with UnknownDiscriminator, otherwise yields the
discriminator together with the decoded field map. -/
def read_protocol_message (w : WireMessage) :
    Except ProtocolError (String × FieldMap) :=
  if registeredDiscriminators.contains w.discriminator then
    Except.ok (w.discriminator, w.fields)
  else
    Except.error ProtocolError.unknownDiscriminator

/-- Modelled from the spec: the closed Message union of the protocol module,
absent from src; one variant per message kind. -/
inductive Message : Type
  | NotifyMessage (stream_name : StreamName) (track_type : TrackType)
      (track_name : TrackName) (element_offset : Int) (saved_ms : Int)
      (ttl : Option Int) : Message
  | UnitElementMessage (stream_name : StreamName) (track_type : TrackType)
      (track_name : TrackName) (unit : Int) (element : Int)
      (value : List Nat) (attributes : List (String × String))
      (last : Bool) : Message
  | StreamTracksRequest (request_id : Int) (topic : String)
      (stream_name : StreamName) : Message
  | StreamTracksResponse (request_id : Int) (stream_name : StreamName)
      (tracks : List (TrackName × TrackType)) : Message
  | StreamTrackUnitElementsRequest (request_id : Int) (topic : String)
      (stream_name : StreamName) (track_type : TrackType)
      (track_name : TrackName) (start_element : Int)
      (stop_element : Int) : Message
  | StreamTrackUnitElementsResponse (request_id : Int)
      (stream_name : StreamName) (track_type : TrackType)
      (track_name : TrackName) (unit : Int) (values : List Payload) : Message
  | StreamTrackUnitsRequest (request_id : Int) (topic : String)
      (stream_name : StreamName) (track_type : TrackType)
      (track_name : TrackName) (from_ms : Int) (to_ms : Int) : Message
  | StreamTrackUnitsResponse (request_id : Int) (stream_name : StreamName)
      (track_type : TrackType) (track_name : TrackName) (from_ms : Int)
      (to_ms : Int) (data : List Nat) : Message
  | PingRequestResponse (request_id : Int) (topic : String)
      (is_response : Bool) : Message
  | ServicesFFProbeRequest (request_id : Int) (topic : String) (url : String)
      (attributes : List (String × String)) : Message
  | ServicesFFProbeResponse (request_id : Int)
      (response_type : ServicesFFProbeResponseType) (response_code : Int)
      (streams : List (List (String × String))) : Message

/-- Modelled from the spec: reading an optional long field back; anything but
an explicit absence marker or a present long is a schema mismatch. -/
def parseOptLong : FieldValue → Except ProtocolError (Option Int)
  | FieldValue.noneV => Except.ok none
  | FieldValue.someV (FieldValue.longV n) => Except.ok (some n)
  | _ => Except.error ProtocolError.schemaFieldMismatch

/-- Modelled from the spec: reading one (track name, track type) entry back
from its field-map record. -/
def parseTrackEntry : FieldValue → Except ProtocolError (TrackName × TrackType)
  | FieldValue.recordV
      [("name", FieldValue.bytesV n), ("type", FieldValue.enumV t)] =>
    match tagTrackType t with
    | Except.ok tt => Except.ok (n, tt)
    | Except.error e => Except.error e
  | _ => Except.error ProtocolError.schemaFieldMismatch

/-- Modelled from the spec: reading an ordered sequence of track entries. -/
def parseTrackEntries :
    List FieldValue → Except ProtocolError (List (TrackName × TrackType))
  | [] => Except.ok []
  | v :: rest =>
    match parseTrackEntry v, parseTrackEntries rest with
    | Except.ok x, Except.ok xs => Except.ok (x :: xs)
    | Except.error e, _ => Except.error e
    | _, Except.error e => Except.error e

/-- Modelled from the spec: reading one Payload back from its record. -/
def parsePayload : FieldValue → Except ProtocolError Payload
  | FieldValue.recordV
      [("data", FieldValue.bytesV d), ("attributes", FieldValue.mapV a)] =>
    Except.ok ⟨d, a⟩
  | _ => Except.error ProtocolError.schemaFieldMismatch

/-- Modelled from the spec: reading an ordered sequence of Payload values. -/
def parsePayloads : List FieldValue → Except ProtocolError (List Payload)
  | [] => Except.ok []
  | v :: rest =>
    match parsePayload v, parsePayloads rest with
    | Except.ok x, Except.ok xs => Except.ok (x :: xs)
    | Except.error e, _ => Except.error e
    | _, Except.error e => Except.error e

/-- Modelled from the spec: reading one attribute map back. -/
def parseAttrMap : FieldValue → Except ProtocolError (List (String × String))
  | FieldValue.mapV m => Except.ok m
  | _ => Except.error ProtocolError.schemaFieldMismatch

/-- Modelled from the spec: reading an ordered sequence of attribute maps. -/
def parseAttrMaps :
    List FieldValue → Except ProtocolError (List (List (String × String)))
  | [] => Except.ok []
  | v :: rest =>
    match parseAttrMap v, parseAttrMaps rest with
    | Except.ok x, Except.ok xs => Except.ok (x :: xs)
    | Except.error e, _ => Except.error e
    | _, Except.error e => Except.error e

/-- Modelled from the spec: Message::from of the protocol module, absent from
src; maps each known discriminator with its decoded field map to the matching
typed variant, surfacing a missing or mis-typed field as an error rather than
defaulting. -/
def Message.ofParts (d : String) (fm : FieldMap) : Except ProtocolError Message :=
  match d, fm with
  | "NotifyMessage",
    [("stream_name", FieldValue.bytesV s), ("track_type", FieldValue.enumV t),
      ("track_name", FieldValue.bytesV n),
      ("element_offset", FieldValue.longV o),
      ("saved_ms", FieldValue.longV ms), ("ttl", ttlv)] => do
    let tt ← tagTrackType t
    let ttl ← parseOptLong ttlv
    pure (Message.NotifyMessage s tt n o ms ttl)
  | "UnitElementMessage",
    [("stream_name", FieldValue.bytesV s), ("track_type", FieldValue.enumV t),
      ("track_name", FieldValue.bytesV n), ("unit", FieldValue.longV u),
      ("element", FieldValue.longV el), ("value", FieldValue.bytesV v),
      ("attributes", FieldValue.mapV a), ("last", FieldValue.boolV lst)] => do
    let tt ← tagTrackType t
    pure (Message.UnitElementMessage s tt n u el v a lst)
  | "StreamTracksRequest",
    [("request_id", FieldValue.longV rid), ("topic", FieldValue.stringV tp),
      ("stream_name", FieldValue.bytesV s)] =>
    pure (Message.StreamTracksRequest rid tp s)
  | "StreamTracksResponse",
    [("request_id", FieldValue.longV rid),
      ("stream_name", FieldValue.bytesV s),
      ("tracks", FieldValue.arrayV vs)] => do
    let ts ← parseTrackEntries vs
    pure (Message.StreamTracksResponse rid s ts)
  | "StreamTrackUnitElementsRequest",
    [("request_id", FieldValue.longV rid), ("topic", FieldValue.stringV tp),
      ("stream_name", FieldValue.bytesV s),
      ("track_type", FieldValue.enumV t),
      ("track_name", FieldValue.bytesV n),
      ("from_element", FieldValue.longV a),
      ("to_element", FieldValue.longV b)] => do
    let tt ← tagTrackType t
    pure (Message.StreamTrackUnitElementsRequest rid tp s tt n a b)
  | "StreamTrackUnitElementsResponse",
    [("request_id", FieldValue.longV rid),
      ("stream_name", FieldValue.bytesV s),
      ("track_type", FieldValue.enumV t),
      ("track_name", FieldValue.bytesV n), ("unit", FieldValue.longV u),
      ("values", FieldValue.arrayV vs)] => do
    let tt ← tagTrackType t
    let ps ← parsePayloads vs
    pure (Message.StreamTrackUnitElementsResponse rid s tt n u ps)
  | "StreamTrackUnitsRequest",
    [("request_id", FieldValue.longV rid), ("topic", FieldValue.stringV tp),
      ("stream_name", FieldValue.bytesV s),
      ("track_type", FieldValue.enumV t),
      ("track_name", FieldValue.bytesV n), ("from_ms", FieldValue.longV a),
      ("to_ms", FieldValue.longV b)] => do
    let tt ← tagTrackType t
    pure (Message.StreamTrackUnitsRequest rid tp s tt n a b)
  | "StreamTrackUnitsResponse",
    [("request_id", FieldValue.longV rid),
      ("stream_name", FieldValue.bytesV s),
      ("track_type", FieldValue.enumV t),
      ("track_name", FieldValue.bytesV n), ("from_ms", FieldValue.longV a),
      ("to_ms", FieldValue.longV b), ("data", FieldValue.bytesV dt)] => do
    let tt ← tagTrackType t
    pure (Message.StreamTrackUnitsResponse rid s tt n a b dt)
  | "PingRequestResponse",
    [("request_id", FieldValue.longV rid), ("topic", FieldValue.stringV tp),
      ("is_response", FieldValue.boolV r)] =>
    pure (Message.PingRequestResponse rid tp r)
  | "ServicesFFProbeRequest",
    [("request_id", FieldValue.longV rid), ("topic", FieldValue.stringV tp),
      ("url", FieldValue.stringV u), ("attributes", FieldValue.mapV a)] =>
    pure (Message.ServicesFFProbeRequest rid tp u a)
  | "ServicesFFProbeResponse",
    [("request_id", FieldValue.longV rid),
      ("response_type", FieldValue.enumV t),
      ("response_code", FieldValue.longV c),
      ("streams", FieldValue.arrayV vs)] => do
    let rt ← tagFFProbeResponseType t
    let st ← parseAttrMaps vs
    pure (Message.ServicesFFProbeResponse rid rt c st)
  | _, _ => Except.error ProtocolError.schemaFieldMismatch

/-- Modelled from the spec: Message::dump of the protocol module, absent from
src; each variant reconstructs the field map a builder would have produced for
identical inputs and re-encodes it. -/
def Message.dump : Message → WireMessage
  | Message.NotifyMessage s tt n o ms ttl =>
    build_notify_message s tt n o ms ttl
  | Message.UnitElementMessage s tt n u el v a lst =>
    build_unit_element_message s tt n u el v a lst
  | Message.StreamTracksRequest rid tp s =>
    build_stream_tracks_request rid tp s
  | Message.StreamTracksResponse rid s ts =>
    build_stream_tracks_response rid s ts
  | Message.StreamTrackUnitElementsRequest rid tp s tt n a b =>
    build_stream_track_unit_elements_request rid tp s tt n a b
  | Message.StreamTrackUnitElementsResponse rid s tt n u ps =>
    build_stream_track_unit_elements_response rid s tt n u ps
  | Message.StreamTrackUnitsRequest rid tp s tt n a b =>
    build_stream_track_units_request rid tp s tt n a b
  | Message.StreamTrackUnitsResponse rid s tt n a b dt =>
    build_stream_track_units_response rid s tt n a b dt
  | Message.PingRequestResponse rid tp r =>
    build_ping_request_response rid tp r
  | Message.ServicesFFProbeRequest rid tp u a =>
    build_services_ffprobe_request rid tp u a
  | Message.ServicesFFProbeResponse rid rt c st =>
    build_services_ffprobe_response rid rt c st

/-- The decode, convert, re-dump pipeline on an encoded buffer; none records
a decoding or conversion failure. -/
def decode_then_redump (w : WireMessage) : Option WireMessage :=
  match read_protocol_message w with
  | Except.ok p =>
    match Message.ofParts p.1 p.2 with
    | Except.ok m => some (Message.dump m)
    | Except.error _ => none
  | Except.error _ => none

/-- A buffer round-trips when decoding, converting to the typed variant and
re-dumping reproduces it exactly. -/
def RoundTrip (w : WireMessage) : Prop :=
  decode_then_redump w = some w

lemma tagTrackType_tag (tt : TrackType) :
    tagTrackType (trackTypeTag tt) = Except.ok tt := by
  cases tt <;> rfl

lemma tagFFProbeResponseType_tag (rt : ServicesFFProbeResponseType) :
    tagFFProbeResponseType (ffprobeResponseTypeTag rt) = Except.ok rt := by
  cases rt
  rfl

lemma parseOptLong_encode (o : Option Int) :
    parseOptLong (encodeOptLong o) = Except.ok o := by
  cases o <;> rfl

lemma parseTrackEntry_encode (x : TrackName × TrackType) :
    parseTrackEntry (encodeTrackEntry x) = Except.ok x := by
  obtain ⟨n, tt⟩ := x
  cases tt <;> rfl

lemma parseTrackEntries_encode (l : List (TrackName × TrackType)) :
    parseTrackEntries (l.map encodeTrackEntry) = Except.ok l := by
  induction l with
  | nil => rfl
  | cons x xs ih =>
    simp [List.map_cons, parseTrackEntries, parseTrackEntry_encode, ih]

lemma parsePayload_encode (p : Payload) :
    parsePayload (encodePayload p) = Except.ok p := by
  obtain ⟨d, a⟩ := p
  rfl

lemma parsePayloads_encode (l : List Payload) :
    parsePayloads (l.map encodePayload) = Except.ok l := by
  induction l with
  | nil => rfl
  | cons x xs ih =>
    simp [List.map_cons, parsePayloads, parsePayload_encode, ih]

lemma parseAttrMaps_encode (l : List (List (String × String))) :
    parseAttrMaps (l.map FieldValue.mapV) = Except.ok l := by
  induction l with
  | nil => rfl
  | cons x xs ih =>
    simp [List.map_cons, parseAttrMaps, parseAttrMap, ih]

lemma roundtrip_of_parts (w : WireMessage) (m : Message)
    (hreg : w.discriminator ∈ registeredDiscriminators)
    (hof : Message.ofParts w.discriminator w.fields = Except.ok m)
    (hdump : Message.dump m = w) : RoundTrip w := by
  have hread :
      read_protocol_message w = Except.ok (w.discriminator, w.fields) := by
    simp [read_protocol_message, hreg]
  simp [RoundTrip, decode_then_redump, hread, hof, hdump]

lemma rt_notify_message (s : StreamName) (tt : TrackType) (n : TrackName)
    (o ms : Int) (ttl : Option Int) :
    RoundTrip (build_notify_message s tt n o ms ttl) :=
  roundtrip_of_parts _ (Message.NotifyMessage s tt n o ms ttl) (by show "NotifyMessage" ∈ registeredDiscriminators; decide)
    (by cases tt <;> cases ttl <;> rfl) (by rfl)

lemma rt_unit_element_message (s : StreamName) (tt : TrackType)
    (n : TrackName) (u el : Int) (v : List Nat)
    (a : List (String × String)) (lst : Bool) :
    RoundTrip (build_unit_element_message s tt n u el v a lst) :=
  roundtrip_of_parts _ (Message.UnitElementMessage s tt n u el v a lst)
    (by show "UnitElementMessage" ∈ registeredDiscriminators; decide) (by cases tt <;> rfl) (by rfl)

lemma rt_stream_tracks_request (rid : Int) (tp : String) (s : StreamName) :
    RoundTrip (build_stream_tracks_request rid tp s) :=
  roundtrip_of_parts _ (Message.StreamTracksRequest rid tp s) (by show "StreamTracksRequest" ∈ registeredDiscriminators; decide)
    (by rfl) (by rfl)

lemma rt_stream_tracks_response (rid : Int) (s : StreamName)
    (tracks : List (TrackName × TrackType)) :
    RoundTrip (build_stream_tracks_response rid s tracks) :=
  roundtrip_of_parts _ (Message.StreamTracksResponse rid s tracks) (by show "StreamTracksResponse" ∈ registeredDiscriminators; decide)
    (by
      show (do
        let ts ← parseTrackEntries (tracks.map encodeTrackEntry)
        pure (Message.StreamTracksResponse rid s ts) :
          Except ProtocolError Message) =
        Except.ok (Message.StreamTracksResponse rid s tracks)
      rw [parseTrackEntries_encode]
      rfl)
    (by rfl)

lemma rt_stream_track_unit_elements_request (rid : Int) (tp : String)
    (s : StreamName) (tt : TrackType) (n : TrackName) (a b : Int) :
    RoundTrip (build_stream_track_unit_elements_request rid tp s tt n a b) :=
  roundtrip_of_parts _
    (Message.StreamTrackUnitElementsRequest rid tp s tt n a b) (by show "StreamTrackUnitElementsRequest" ∈ registeredDiscriminators; decide)
    (by cases tt <;> rfl) (by rfl)

lemma rt_stream_track_unit_elements_response (rid : Int) (s : StreamName)
    (tt : TrackType) (n : TrackName) (u : Int) (ps : List Payload) :
    RoundTrip (build_stream_track_unit_elements_response rid s tt n u ps) :=
  roundtrip_of_parts _
    (Message.StreamTrackUnitElementsResponse rid s tt n u ps) (by show "StreamTrackUnitElementsResponse" ∈ registeredDiscriminators; decide)
    (by
      show (do
        let tt2 ← tagTrackType (trackTypeTag tt)
        let ps2 ← parsePayloads (ps.map encodePayload)
        pure (Message.StreamTrackUnitElementsResponse rid s tt2 n u ps2) :
          Except ProtocolError Message) =
        Except.ok (Message.StreamTrackUnitElementsResponse rid s tt n u ps)
      rw [tagTrackType_tag]
      show (do
        let ps2 ← parsePayloads (ps.map encodePayload)
        pure (Message.StreamTrackUnitElementsResponse rid s tt n u ps2) :
          Except ProtocolError Message) = _
      rw [parsePayloads_encode]
      rfl)
    (by rfl)

lemma rt_stream_track_units_request (rid : Int) (tp : String)
    (s : StreamName) (tt : TrackType) (n : TrackName) (a b : Int) :
    RoundTrip (build_stream_track_units_request rid tp s tt n a b) :=
  roundtrip_of_parts _ (Message.StreamTrackUnitsRequest rid tp s tt n a b)
    (by show "StreamTrackUnitsRequest" ∈ registeredDiscriminators; decide) (by cases tt <;> rfl) (by rfl)

lemma rt_stream_track_units_response (rid : Int) (s : StreamName)
    (tt : TrackType) (n : TrackName) (a b : Int) (dt : List Nat) :
    RoundTrip (build_stream_track_units_response rid s tt n a b dt) :=
  roundtrip_of_parts _
    (Message.StreamTrackUnitsResponse rid s tt n a b dt) (by show "StreamTrackUnitsResponse" ∈ registeredDiscriminators; decide)
    (by cases tt <;> rfl) (by rfl)

lemma rt_ping_request_response (rid : Int) (tp : String) (r : Bool) :
    RoundTrip (build_ping_request_response rid tp r) :=
  roundtrip_of_parts _ (Message.PingRequestResponse rid tp r) (by show "PingRequestResponse" ∈ registeredDiscriminators; decide)
    (by rfl) (by rfl)

lemma rt_services_ffprobe_request (rid : Int) (tp : String) (u : String)
    (a : List (String × String)) :
    RoundTrip (build_services_ffprobe_request rid tp u a) :=
  roundtrip_of_parts _ (Message.ServicesFFProbeRequest rid tp u a) (by show "ServicesFFProbeRequest" ∈ registeredDiscriminators; decide)
    (by rfl) (by rfl)

lemma rt_services_ffprobe_response (rid : Int)
    (rt : ServicesFFProbeResponseType) (c : Int)
    (st : List (List (String × String))) :
    RoundTrip (build_services_ffprobe_response rid rt c st) :=
  roundtrip_of_parts _ (Message.ServicesFFProbeResponse rid rt c st) (by show "ServicesFFProbeResponse" ∈ registeredDiscriminators; decide)
    (by
      show (do
        let rt2 ← tagFFProbeResponseType (ffprobeResponseTypeTag rt)
        let st2 ← parseAttrMaps (st.map FieldValue.mapV)
        pure (Message.ServicesFFProbeResponse rid rt2 c st2) :
          Except ProtocolError Message) =
        Except.ok (Message.ServicesFFProbeResponse rid rt c st)
      rw [tagFFProbeResponseType_tag]
      show (do
        let st2 ← parseAttrMaps (st.map FieldValue.mapV)
        pure (Message.ServicesFFProbeResponse rid rt c st2) :
          Except ProtocolError Message) = _
      rw [parseAttrMaps_encode]
      rfl)
    (by rfl)

/-- C1: for every message kind and every builder input, decoding the built
buffer, converting the decoded discriminator and field map to the typed
variant and dumping that variant reproduces the built buffer exactly. -/
theorem message_roundtrip_identity :
    (∀ (s : StreamName) (tt : TrackType) (n : TrackName) (o ms : Int)
      (ttl : Option Int), RoundTrip (build_notify_message s tt n o ms ttl)) ∧
    (∀ (s : StreamName) (tt : TrackType) (n : TrackName) (u el : Int)
      (v : List Nat) (a : List (String × String)) (lst : Bool),
      RoundTrip (build_unit_element_message s tt n u el v a lst)) ∧
    (∀ (rid : Int) (tp : String) (s : StreamName),
      RoundTrip (build_stream_tracks_request rid tp s)) ∧
    (∀ (rid : Int) (s : StreamName) (tracks : List (TrackName × TrackType)),
      RoundTrip (build_stream_tracks_response rid s tracks)) ∧
    (∀ (rid : Int) (tp : String) (s : StreamName) (tt : TrackType)
      (n : TrackName) (a b : Int),
      RoundTrip (build_stream_track_unit_elements_request rid tp s tt n a b)) ∧
    (∀ (rid : Int) (s : StreamName) (tt : TrackType) (n : TrackName)
      (u : Int) (ps : List Payload),
      RoundTrip (build_stream_track_unit_elements_response rid s tt n u ps)) ∧
    (∀ (rid : Int) (tp : String) (s : StreamName) (tt : TrackType)
      (n : TrackName) (a b : Int),
      RoundTrip (build_stream_track_units_request rid tp s tt n a b)) ∧
    (∀ (rid : Int) (s : StreamName) (tt : TrackType) (n : TrackName)
      (a b : Int) (dt : List Nat),
      RoundTrip (build_stream_track_units_response rid s tt n a b dt)) ∧
    (∀ (rid : Int) (tp : String) (r : Bool),
      RoundTrip (build_ping_request_response rid tp r)) ∧
    (∀ (rid : Int) (tp : String) (u : String)
      (a : List (String × String)),
      RoundTrip (build_services_ffprobe_request rid tp u a)) ∧
    (∀ (rid : Int) (rt : ServicesFFProbeResponseType) (c : Int)
      (st : List (List (String × String))),
      RoundTrip (build_services_ffprobe_response rid rt c st)) :=
  ⟨rt_notify_message, rt_unit_element_message, rt_stream_tracks_request,
    rt_stream_tracks_response, rt_stream_track_unit_elements_request,
    rt_stream_track_unit_elements_response, rt_stream_track_units_request,
    rt_stream_track_units_response, rt_ping_request_response,
    rt_services_ffprobe_request, rt_services_ffprobe_response⟩

/-- C9: decoding a buffer whose discriminator has no registered schema
returns the UnknownDiscriminator error; no message is decoded. -/
theorem decode_unknown_discriminator :
    ∀ w : WireMessage,
      w.discriminator ∉ registeredDiscriminators →
      read_protocol_message w =
        Except.error ProtocolError.unknownDiscriminator := by
  intro w h
  simp [read_protocol_message, h]

/-- Witness for C9 at a concrete buffer with the unregistered discriminator
Garbage. -/
theorem decode_unknown_discriminator_witness :
    (WireMessage.mk "Garbage" []).discriminator ∉ registeredDiscriminators ∧
    read_protocol_message (WireMessage.mk "Garbage" []) =
      Except.error ProtocolError.unknownDiscriminator :=
  ⟨by decide, decode_unknown_discriminator (WireMessage.mk "Garbage" []) (by decide)⟩

/-- The stream identifier of the concrete scenario, the 16 bytes of the UUID
fa807469-fbb3-4f63-b1a9-f63fbbf90f41. -/
def scenarioStream : StreamName :=
  [250, 128, 116, 105, 251, 179, 79, 99, 177, 169, 246, 63, 187, 249, 15, 65]

/-- The packed form of the track name "test". -/
def scenarioTrack1 : TrackName :=
  [116, 101, 115, 116, 0, 0, 0, 0, 0, 0, 0, 0, 0, 0, 0, 0]

/-- The packed form of the track name "test2". -/
def scenarioTrack2 : TrackName :=
  [116, 101, 115, 116, 50, 0, 0, 0, 0, 0, 0, 0, 0, 0, 0, 0]

/-- The track list of the concrete scenario. -/
def scenarioTracks : List (TrackName × TrackType) :=
  [(scenarioTrack1, TrackType.Meta), (scenarioTrack2, TrackType.Video)]

/-- C8: building a StreamTracksResponse for the scenario stream with sequence
number 0 and tracks test Meta and test2 Video, then decoding, yields the
StreamTracksResponse variant holding exactly those pairs in order, and
dumping it equals the built buffer; likewise for the empty track list. -/
theorem stream_tracks_response_scenario :
    pack_track_name [116, 101, 115, 116] =
      some (Except.ok scenarioTrack1) ∧
    pack_track_name [116, 101, 115, 116, 50] =
      some (Except.ok scenarioTrack2) ∧
    read_protocol_message
        (build_stream_tracks_response 0 scenarioStream scenarioTracks) =
      Except.ok ("StreamTracksResponse",
        (build_stream_tracks_response 0 scenarioStream scenarioTracks).fields) ∧
    Message.ofParts "StreamTracksResponse"
        (build_stream_tracks_response 0 scenarioStream scenarioTracks).fields =
      Except.ok (Message.StreamTracksResponse 0 scenarioStream scenarioTracks) ∧
    Message.dump (Message.StreamTracksResponse 0 scenarioStream scenarioTracks) =
      build_stream_tracks_response 0 scenarioStream scenarioTracks ∧
    Message.ofParts "StreamTracksResponse"
        (build_stream_tracks_response 0 scenarioStream []).fields =
      Except.ok (Message.StreamTracksResponse 0 scenarioStream []) ∧
    Message.dump (Message.StreamTracksResponse 0 scenarioStream []) =
      build_stream_tracks_response 0 scenarioStream [] :=
  ⟨rfl, rfl, rfl, rfl, rfl, rfl, rfl⟩

/-- C2: pack_track_name returns the invalid-name-length error exactly when the
byte length of the name exceeds 16; a 16-byte name succeeds, a 17-byte name
fails, and the empty name succeeds. -/
theorem pack_track_name_error_iff :
    (∀ track_name : List Nat,
      (∃ e, pack_track_name track_name = some (Except.error e)) ↔
        TRACK_NAME_MAX_LENGTH < track_name.length) ∧
    (∃ buf, pack_track_name (List.replicate 16 97) = some (Except.ok buf)) ∧
    (∃ e, pack_track_name (List.replicate 17 97) = some (Except.error e)) ∧
    (∃ buf, pack_track_name [] = some (Except.ok buf)) := by
  refine ⟨fun track_name => ⟨fun he => ?_, fun hg => ⟨_, pack_track_name_of_gt track_name hg⟩⟩,
    ⟨_, pack_track_name_of_le (List.replicate 16 97) (by decide)⟩,
    ⟨_, pack_track_name_of_gt (List.replicate 17 97) (by decide)⟩,
    ⟨_, pack_track_name_of_le [] (by decide)⟩⟩
  by_contra hle
  obtain ⟨e, he⟩ := he
  rw [pack_track_name_of_le track_name (by omega)] at he
  simp at he

/-- C3: for a name of byte length at most 16, pack_track_name returns a
16-byte buffer equal to the name followed by zero padding on the right. -/
theorem pack_track_name_pads_right :
    ∀ track_name : List Nat, track_name.length ≤ TRACK_NAME_MAX_LENGTH →
      pack_track_name track_name =
        some (Except.ok
          (track_name ++
            List.replicate (TRACK_NAME_MAX_LENGTH - track_name.length) 0)) ∧
      (track_name ++
        List.replicate (TRACK_NAME_MAX_LENGTH - track_name.length) 0).length =
          TRACK_NAME_MAX_LENGTH := by
  intro track_name h
  refine ⟨pack_track_name_of_le track_name h, ?_⟩
  simp only [List.length_append, List.length_replicate]
  omega

/-- Witness for C3 at the concrete two-byte name [97, 98]. -/
theorem pack_track_name_pads_right_witness :
    [97, 98].length ≤ TRACK_NAME_MAX_LENGTH ∧
    (pack_track_name [97, 98] =
      some (Except.ok
        ([97, 98] ++ List.replicate (TRACK_NAME_MAX_LENGTH - [97, 98].length) 0)) ∧
      ([97, 98] ++
        List.replicate (TRACK_NAME_MAX_LENGTH - [97, 98].length) 0).length =
          TRACK_NAME_MAX_LENGTH) :=
  ⟨by decide, pack_track_name_pads_right [97, 98] (by decide)⟩

/-- C4: pack_stream_name is total and returns the 16 bytes of the UUID
unchanged. -/
theorem pack_stream_name_id :
    ∀ u : List Nat, u.length = STREAM_NAME_MAX_LENGTH →
      pack_stream_name u = u ∧
      (pack_stream_name u).length = STREAM_NAME_MAX_LENGTH :=
  fun _ h => ⟨rfl, h⟩

/-- Witness for C4 at the concrete UUID fa807469-fbb3-4f63-b1a9-f63fbbf90f41. -/
theorem pack_stream_name_id_witness :
    [250, 128, 116, 105, 251, 179, 79, 99, 177, 169, 246, 63, 187, 249, 15,
      65].length = STREAM_NAME_MAX_LENGTH ∧
    (pack_stream_name
        [250, 128, 116, 105, 251, 179, 79, 99, 177, 169, 246, 63, 187, 249, 15,
          65] =
      [250, 128, 116, 105, 251, 179, 79, 99, 177, 169, 246, 63, 187, 249, 15,
        65] ∧
      (pack_stream_name
          [250, 128, 116, 105, 251, 179, 79, 99, 177, 169, 246, 63, 187, 249,
            15, 65]).length = STREAM_NAME_MAX_LENGTH) :=
  ⟨by decide,
    pack_stream_name_id
      [250, 128, 116, 105, 251, 179, 79, 99, 177, 169, 246, 63, 187, 249, 15,
        65] (by decide)⟩

/-- C5: get_empty_track_name is the all-zero 16-byte buffer, packing the empty
name yields exactly that buffer, and unpacking it gives back the empty name. -/
theorem empty_track_name_spec :
    get_empty_track_name = List.replicate 16 0 ∧
    pack_track_name [] = some (Except.ok get_empty_track_name) ∧
    unpack_track_name get_empty_track_name = [] :=
  ⟨rfl, rfl, rfl⟩

/-- C6: for a name of at most 16 bytes not ending in a zero byte, unpacking
the packed buffer recovers the name exactly; and appending trailing zero bytes
to a name does not change the packed buffer. -/
theorem pack_unpack_track_name :
    (∀ track_name : List Nat, track_name.length ≤ TRACK_NAME_MAX_LENGTH →
      track_name.getLast? ≠ some 0 →
      pack_track_name track_name =
        some (Except.ok
          (track_name ++
            List.replicate (TRACK_NAME_MAX_LENGTH - track_name.length) 0)) ∧
      unpack_track_name
        (track_name ++
          List.replicate (TRACK_NAME_MAX_LENGTH - track_name.length) 0) =
        track_name) ∧
    (∀ (track_name : List Nat) (k : Nat),
      track_name.length + k ≤ TRACK_NAME_MAX_LENGTH →
      pack_track_name (track_name ++ List.replicate k 0) =
        pack_track_name track_name) := by
  constructor
  · intro l h hlast
    exact ⟨pack_track_name_of_le l h, unpack_append_zeros l _ hlast⟩
  · intro l k h
    rw [pack_track_name_of_le (l ++ List.replicate k 0) (by simp; omega),
      pack_track_name_of_le l (by omega),
      List.append_assoc, ← List.replicate_add]
    have harith :
        k + (TRACK_NAME_MAX_LENGTH - (l ++ List.replicate k 0).length) =
          TRACK_NAME_MAX_LENGTH - l.length := by
      simp only [List.length_append, List.length_replicate]
      omega
    rw [harith]

/-- Witness for C6 at the name "test" and at the one-byte name [97] with two
appended zero bytes. -/
theorem pack_unpack_track_name_witness :
    ([116, 101, 115, 116].length ≤ TRACK_NAME_MAX_LENGTH ∧
      [116, 101, 115, 116].getLast? ≠ some 0 ∧
      (pack_track_name [116, 101, 115, 116] =
        some (Except.ok
          ([116, 101, 115, 116] ++
            List.replicate (TRACK_NAME_MAX_LENGTH - [116, 101, 115, 116].length)
              0)) ∧
        unpack_track_name
          ([116, 101, 115, 116] ++
            List.replicate (TRACK_NAME_MAX_LENGTH - [116, 101, 115, 116].length)
              0) = [116, 101, 115, 116])) ∧
    ([97].length + 2 ≤ TRACK_NAME_MAX_LENGTH ∧
      pack_track_name ([97] ++ List.replicate 2 0) = pack_track_name [97]) :=
  ⟨⟨by decide, by decide,
      pack_unpack_track_name.1 [116, 101, 115, 116] (by decide) (by decide)⟩,
    ⟨by decide, pack_unpack_track_name.2 [97] 2 (by decide)⟩⟩

/-- C7: TrackType is the closed enumeration with exactly the three distinct
variants Video, Meta and NotImplemented, and its default is Video. -/
theorem track_type_closed_and_default :
    (∀ t : TrackType,
      t = TrackType.Video ∨ t = TrackType.Meta ∨ t = TrackType.NotImplemented) ∧
    TrackType.Video ≠ TrackType.Meta ∧
    TrackType.Video ≠ TrackType.NotImplemented ∧
    TrackType.Meta ≠ TrackType.NotImplemented ∧
    TrackType.default = TrackType.Video := by
  refine ⟨fun t => ?_, by decide, by decide, by decide, rfl⟩
  cases t
  · exact Or.inl rfl
  · exact Or.inr (Or.inl rfl)
  · exact Or.inr (Or.inr rfl)

/-- C10: pack_track_name never hits the out-of-bounds slice-copy branch: for
every input it returns some result, either Ok or Err. -/
theorem pack_track_name_no_panic :
    ∀ track_name : List Nat, ∃ r, pack_track_name track_name = some r := by
  intro l
  by_cases h : TRACK_NAME_MAX_LENGTH < l.length
  · exact ⟨_, pack_track_name_of_gt l h⟩
  · exact ⟨_, pack_track_name_of_le l (by omega)⟩

end ProtocolRust
